import Mathlib

/-!
Shallow embedding of `src/helper/blockdevice.cpp` (the `BlockDevice` helper:
MBR partition-table manager, CHS codec and FAT32 overlay formatter).

Machine integers are modelled as `Nat` with explicit `% 2 ^ 64` (`quint64`
wraparound, via `sub64` for subtraction), `% 2 ^ 32` (`quint32` narrowing)
and `toInt32` (`int` narrowing) wherever the C++ value can leave the naive
range.  The C++ `int` division in `divCeil` truncates toward zero, which is
`Int.tdiv`.  Device I/O is modelled by explicit state passing: the partition
table's four on-disk slots are a function `Nat → List Nat`, and the return
value of each `::write` call is a parameter (`wret`, or `ret : Nat → Int`
indexed by call number), so short and failed writes are expressible.
-/

namespace BlockDevice

/-- Modelled from the spec: `SECTOR_SIZE` is declared in `blockdevice.h`,
which is not among the sources; spec §4.1 fixes the sector size at 512
bytes. -/
def SECTOR_SIZE : Nat := 512

/-- Modelled from the spec: `MAX_PARTITIONS` comes from `blockdevice.h`;
spec §3 fixes the table at 4 entries (legacy primary-table limit). -/
def MAX_PARTITIONS : Nat := 4

/-- Modelled from the spec: `PARTITION_ENTRY_SIZE` comes from
`blockdevice.h`; spec §3 fixes entries at 16 bytes. -/
def PARTITION_ENTRY_SIZE : Nat := 16

/-- Modelled from the spec: `PARTITION_ENTRY_OFFSET` comes from
`blockdevice.h`; spec §6 places the table at the conventional legacy MBR
partition-table location, byte 446. -/
def PARTITION_ENTRY_OFFSET : Nat := 446

/-- Modelled from the spec: `NUM_HEADS` comes from `blockdevice.h`; spec §9
names 255 heads as the legacy default geometry. -/
def NUM_HEADS : Nat := 255

/-- Modelled from the spec: `NUM_SECTORS` comes from `blockdevice.h`; spec
§9 names 63 sectors per track as the legacy default geometry. -/
def NUM_SECTORS : Nat := 63

/-! ### CHS codec (`BlockDevice::fillChs`, blockdevice.cpp lines 82-100)

The C++ stores `head`, `sector` and `cylinder` in `int` variables.  For the
positions considered in this development (below `2 ^ 45`, i.e. cylinder
below `2 ^ 31`) the narrowing is the identity, so the model uses `Nat`. -/

/-- `const int head = (position / NUM_SECTORS) % NUM_HEADS;` -/
def chsHead (position : Nat) : Nat := (position / NUM_SECTORS) % NUM_HEADS

/-- `const int sector = (position % NUM_SECTORS) + 1;` -/
def chsSector (position : Nat) : Nat := (position % NUM_SECTORS) + 1

/-- `const int cylinder = position / (NUM_HEADS * NUM_SECTORS);` -/
def chsCylinder (position : Nat) : Nat := position / (NUM_HEADS * NUM_SECTORS)

/-- The three CHS bytes produced by `BlockDevice::fillChs`:
`chs[0] = head & 0xff; chs[1] = ((cylinder >> 2) & 0xc0) | (sector & 0x3f);
chs[2] = cylinder & 0xff;`.  Note that `position` is the raw argument of
`fillChs`; `addPartition` passes the byte offset, not a sector index. -/
def fillChs (position : Nat) : List Nat :=
  [chsHead position &&& 0xff,
   ((chsCylinder position >>> 2) &&& 0xc0) ||| (chsSector position &&& 0x3f),
   chsCylinder position &&& 0xff]

/-! ### Partition table manager (blockdevice.cpp lines 42-55, 102-126) -/

/-- Little-endian byte serialisation of a `quint32` value
(`qToLittleEndian` followed by `memcpy` of the four bytes). -/
def leBytes32 (v : Nat) : List Nat :=
  [v % 256, v / 256 % 256, v / 65536 % 256, v / 16777216 % 256]

/-- The 16-byte entry built by `BlockDevice::addPartition` (lines 103-113):
boot indicator 0, CHS start from `offset`, type byte `0xb` (fat32), CHS end
from `offset + size`, then little-endian LBA (`offset / SECTOR_SIZE` as
`quint32`) and sector count (`size / SECTOR_SIZE` as `quint32`). -/
def partitionEntry (offset size : Nat) : List Nat :=
  [0] ++ fillChs offset ++ [0xb] ++ fillChs ((offset + size) % 2 ^ 64)
    ++ leBytes32 (offset / SECTOR_SIZE % 2 ^ 32)
    ++ leBytes32 (size / SECTOR_SIZE % 2 ^ 32)

/-- Device-session state: the in-memory entry list `m_entries` and the four
on-disk table slots (slot index ↦ its 16 stored bytes). -/
structure BlockDev where
  entries : List (List Nat)
  disk : Nat → List Nat

/-- A slot consisting entirely of zero bytes is an empty slot
(`std::all_of (... c == '\0')`, line 49). -/
def isEmptySlot (e : List Nat) : Bool := e.all (· == 0)

/-- The non-empty slots of the on-disk table, in on-disk order. -/
def tableSlots (d : BlockDev) : List (List Nat) :=
  ((List.range MAX_PARTITIONS).map d.disk).filter (fun e => !(isEmptySlot e))

/-- `BlockDevice::read` (lines 42-55): reads the four slots in order,
skips empty ones and APPENDS the rest to `m_entries` (the list is not
cleared first).  The device read itself is assumed to succeed. -/
def readTable (d : BlockDev) : BlockDev :=
  { d with entries := d.entries ++ tableSlots d }

/-- Overwrite one table slot on disk. -/
def writeSlot (disk : Nat → List Nat) (i : Nat) (e : List Nat) :
    Nat → List Nat :=
  fun j => if j = i then e else disk j

/-- `BlockDevice::addPartition` (lines 102-126).  `wret` is the return
value of the single 16-byte `::write` call.  Mirrors the source order:
the entry is built, then `num = m_entries.size() + 1` is checked against
`MAX_PARTITIONS` BEFORE the in-memory append, the seek and the write;
on a write return different from 16 the function throws after the
in-memory append.  (The on-disk bytes of a short write are modelled as
unchanged; no claim depends on partially written slot contents.) -/
def addPartition (d : BlockDev) (offset size : Nat) (wret : Int) :
    BlockDev × Except String Nat :=
  let entry := partitionEntry offset size
  let num := d.entries.length + 1
  if num > MAX_PARTITIONS then
    (d, .error "Partition table is full.")
  else
    let dNew : BlockDev :=
      { entries := d.entries ++ [entry]
        disk := if wret = (PARTITION_ENTRY_SIZE : Int) then
            writeSlot d.disk (num - 1) entry
          else d.disk }
    if wret = (PARTITION_ENTRY_SIZE : Int) then (dNew, .ok num)
    else (dNew, .error "Failed to add partition.")

/-! ### Raw zero writer (`BlockDevice::writeZeros`, lines 69-80) -/

/-- The requested length of each `::write` call of `writeZeros size`:
the loop runs `i = 0, 512, 1024, ...` while `i < size` and requests
`min(CHUNK_SIZE, size - i)` bytes. -/
def chunkSizes (size : Nat) : List Nat :=
  (List.range ((size + 511) / 512)).map (fun i => min 512 (size - 512 * i))

/-- Loop body of `writeZeros`: `ret k` is the return value of the `k`-th
`::write` call.  Only `len < 0` aborts; any non-negative return value
(including a short one) is added to `m_bytesWritten` and the loop
continues with the next chunk. -/
def wzGo (ret : Nat → Int) : List Nat → Nat → Nat → Except String Nat
  | [], _, acc => .ok acc
  | _ :: rest, k, acc =>
    if ret k < 0 then .error "Failed to write zeros to block device."
    else wzGo ret rest (k + 1) (acc + (ret k).toNat)

/-- `BlockDevice::writeZeros size` starting from `m_bytesWritten = acc`;
returns the final `m_bytesWritten` on success. -/
def writeZeros (ret : Nat → Int) (size acc : Nat) : Except String Nat :=
  wzGo ret (chunkSizes size) 0 acc

/-- Result discriminator for the modelled fallible operations. -/
def isOk : Except String Nat → Bool
  | .ok _ => true
  | .error _ => false

/-! ### FAT32 overlay formatter, layout derivation
(`BlockDevice::formatOverlayPartition`, lines 131-176) -/

def RESERVED_SECTORS : Nat := 32

def NR_FATS : Nat := 2

def FIRST_CLUSTER : Nat := 3

/-- `constexpr std::array<int, 4> ranges = {260, 1024*8, 1024*16, 1024*32}` -/
def ranges : List Int := [260, 8192, 16384, 32768]

/-- C++ narrowing conversion of an unsigned value to 32-bit signed `int`
(two's complement). -/
def toInt32 (x : Nat) : Int :=
  if x % 2 ^ 32 < 2 ^ 31 then (x % 2 ^ 32 : Nat)
  else (x % 2 ^ 32 : Nat) - 2 ^ 32

/-- C++ conversion of a (possibly negative) `int` to `quint64`
(two's complement, i.e. reduction mod `2 ^ 64`). -/
def u64ofInt (i : Int) : Nat := (i % 2 ^ 64).toNat

/-- `quint64` subtraction `a - b` (wraparound mod `2 ^ 64`; both arguments
are `quint64` values, i.e. below `2 ^ 64`). -/
def sub64 (a b : Nat) : Nat := (a + 2 ^ 64 - b) % 2 ^ 64

/-- `align(number, alignment) = (number + alignment - 1) & ~(alignment - 1)`
(line 148-150), on `quint64`: the complement `~(alignment - 1)` over 64
bits is `2 ^ 64 - alignment`. -/
def alignQ (number alignment : Nat) : Nat :=
  ((number + alignment - 1) % 2 ^ 64) &&& (2 ^ 64 - alignment)

/-- `divCeil(a, b) = (a + b - 1) / b` on C++ `int` (truncating division,
`Int.tdiv`).  The intermediate `a + b - 1` stays far below `2 ^ 31` for all
sizes considered, so its own wraparound is not modelled. -/
def divCeilI (a b : Int) : Int := Int.tdiv (a + b - 1) b

/-- `int sizeMb = size / (1024 * 1024);` (line 159). -/
def sizeMb (size : Nat) : Int := toInt32 (size / (1024 * 1024))

/-- Index returned by `qLowerBound(ranges.begin(), ranges.end(), sizeMb)`:
`ranges` is sorted, so the index of the first element not less than `v`
is the number of elements strictly below `v`. -/
def lowerBoundIdx (v : Int) : Nat := (ranges.filter (fun r => r < v)).length

/-- `int sectorsPerCluster = found == ranges.begin() ? 1
: (found - ranges.begin()) * 8;` (line 161). -/
def sectorsPerCluster (size : Nat) : Nat :=
  let idx := lowerBoundIdx (sizeMb size)
  if idx = 0 then 1 else idx * 8

/-- `int clusterSize = SECTOR_SIZE * sectorsPerCluster;` (line 162). -/
def clusterSize (size : Nat) : Nat := SECTOR_SIZE * sectorsPerCluster size

/-- `quint64 numSectors = size / SECTOR_SIZE;` (line 165). -/
def numSectors (size : Nat) : Nat := size / SECTOR_SIZE

/-- `quint64 fatdata = numSectors - RESERVED_SECTORS;` (line 166). -/
def fatdata (size : Nat) : Nat := sub64 (numSectors size) RESERVED_SECTORS

/-- `quint64 clusters = (fatdata * SECTOR_SIZE + NR_FATS * 8)
/ (clusterSize + NR_FATS * 4);` (line 167). -/
def clusters (size : Nat) : Nat :=
  (fatdata size * SECTOR_SIZE + NR_FATS * 8) % 2 ^ 64
    / (clusterSize size + NR_FATS * 4)

/-- `quint64 fatlength = align(divCeil((clusters + 2) * 4, SECTOR_SIZE),
sectorsPerCluster);` (line 168): the first `divCeil` argument is a
`quint64` expression narrowed to `int`, and the `int` result is widened
back to `quint64` for `align`. -/
def fatlength (size : Nat) : Nat :=
  alignQ (u64ofInt (divCeilI (toInt32 ((clusters size + 2) * 4 % 2 ^ 64))
    (toInt32 SECTOR_SIZE))) (sectorsPerCluster size)

/-- `quint64 headerSize = (RESERVED_SECTORS + fatlength * 2
+ sectorsPerCluster) * SECTOR_SIZE;` (line 171). -/
def headerSize (size : Nat) : Nat :=
  (RESERVED_SECTORS + fatlength size * 2 + sectorsPerCluster size)
    * SECTOR_SIZE % 2 ^ 64

/-- `quint64 maxFileSize = std::min(size - headerSize, 0xffffffffULL);`
(line 172). -/
def maxFileSize0 (size : Nat) : Nat :=
  min (sub64 size (headerSize size)) 0xffffffff

/-- `maxFileSize = align(maxFileSize - SECTOR_SIZE - 1, SECTOR_SIZE);`
(line 173). -/
def maxFileSize (size : Nat) : Nat :=
  alignQ (sub64 (sub64 (maxFileSize0 size) SECTOR_SIZE) 1) SECTOR_SIZE

/-- `quint64 fileZeros = std::min(maxFileSize, 64ULL * 1024ULL);`
(line 174). -/
def fileZeros (size : Nat) : Nat := min (maxFileSize size) (64 * 1024)

/-- `quint64 nextFreeCluster = FIRST_CLUSTER + (maxFileSize / clusterSize)
+ 1;` (line 175). -/
def nextFreeCluster (size : Nat) : Nat :=
  FIRST_CLUSTER + maxFileSize size / clusterSize size + 1

/-- `quint64 numFreeClusters = ((size - headerSize) / clusterSize) + 1;`
(line 176). -/
def numFreeClusters (size : Nat) : Nat :=
  sub64 size (headerSize size) / clusterSize size + 1

/-! ### Timestamp encoding (lines 232-241) -/

/-- `quint64 time = ((timeOnly.second() + 1) >> 1) + (timeOnly.minute()
<< 5) + (timeOnly.hour() << 11);` (line 236). -/
def fatTime (hour minute second : Nat) : Nat :=
  ((second + 1) >>> 1) + (minute <<< 5) + (hour <<< 11)

/-- `quint64 date = dateOnly.day() + (dateOnly.month() << 5) +
(dateOnly.year() - 1980);` (line 237): note the year term is NOT shifted. -/
def fatDate (year month day : Nat) : Nat :=
  day + (month <<< 5) + (year - 1980)

/-- Modelled from the spec: the FAT DOS date field per spec §4.2 item 7,
`date = day | (month<<5) | ((year-1980)<<9)`. -/
def specFatDate (year month day : Nat) : Nat :=
  day ||| (month <<< 5) ||| ((year - 1980) <<< 9)

/-! ### Root-directory entries (lines 244-253).  `tlo/thi` and `dlo/dhi`
are the low/high bytes of the encoded time and date. -/

/-- The volume-label directory entry `rootDir` (name "OVERLAY    ",
attribute 0x08). -/
def rootDirBytes (tlo thi dlo dhi : Nat) : List Nat :=
  [0x4f, 0x56, 0x45, 0x52, 0x4c, 0x41, 0x59, 0x20,
   0x20, 0x20, 0x20, 0x08, 0x00, 0x00, tlo, thi, dlo, dhi, dlo, dhi, 0x00,
   0x00, tlo, thi, dlo, dhi, 0x00, 0x00, 0x00, 0x00, 0x00, 0x00]

/-- The "OVERLAY IMG" file entry `fileEntry` (starting cluster
`FIRST_CLUSTER`, size bytes `s0..s3` = little-endian `maxFileSize`). -/
def fileEntryBytes (tlo thi dlo dhi s0 s1 s2 s3 : Nat) : List Nat :=
  [0x4f, 0x56, 0x45, 0x52, 0x4c, 0x41, 0x59, 0x20,
   0x49, 0x4d, 0x47, 0x20, 0x00, 0x00, tlo, thi, dlo, dhi, dlo, dhi, 0x00,
   0x00, tlo, thi, dlo, dhi, FIRST_CLUSTER, 0x00, s0, s1, s2, s3]

/-- The five timestamp fields of a directory entry (creation time+date at
offsets 14-17, access date at 18-19, modification time+date at 22-25). -/
def timestampFields (e : List Nat) : List Nat :=
  [e.getD 14 0, e.getD 15 0, e.getD 16 0, e.getD 17 0,
   e.getD 18 0, e.getD 19 0,
   e.getD 22 0, e.getD 23 0, e.getD 24 0, e.getD 25 0]

/-! ### Write sequence of `formatOverlayPartition` (lines 254-301)

Each physical write is one `WOp`: `fill = false` for a `writeBytes` of a
structured field (its byte count), `fill = true` for a `writeZeros` (which
the raw writer then issues in 512-byte chunks).  Array lengths from the
source: `bootSector` has 90 bytes, `bootCode` 129, `bootSign` 2,
`infoSector` 4, `fsinfo` 12, `fat` 12, `fatEof` 4, `rootDir` and
`fileEntry` 32 each; `bootCodeSize = 420`, `fsinfoOffset = 480`.  The
inner cluster-chain loop (lines 289-292) writes `nextFreeCluster -
(FIRST_CLUSTER + 1)` little-endian 4-byte values; it is modelled as a
single op of that total length. -/

/-- `used = 12 + (nextFreeCluster - (FIRST_CLUSTER + 1)) * 4 + 4`
(lines 279-281), the bytes of one FAT already emitted before its zero
padding. -/
def usedBytes (size : Nat) : Nat :=
  12 + sub64 (nextFreeCluster size) (FIRST_CLUSTER + 1) * 4 + 4

/-- `SECTOR_SIZE * fatlength - used` (line 294), a `quint64` difference:
when `used` exceeds the FAT's byte length this wraps around. -/
def fatPadBytes (size : Nat) : Nat :=
  sub64 (SECTOR_SIZE * fatlength size % 2 ^ 64) (usedBytes size)

/-- One physical write of the format sequence. -/
structure WOp where
  name : String
  len : Nat
  fill : Bool
  deriving Repr, DecidableEq

/-- The ops of one FAT copy (loop body, lines 286-295). -/
def fatOps (size : Nat) : List WOp :=
  [⟨"fat", 12, false⟩,
   ⟨"clusterChain", sub64 (nextFreeCluster size) (FIRST_CLUSTER + 1) * 4,
    false⟩,
   ⟨"fatEof", 4, false⟩,
   ⟨"fatPad", fatPadBytes size, true⟩]

/-- The complete write sequence of `formatOverlayPartition` (lines
259-300), in order. -/
def formatOps (size : Nat) : List WOp :=
  [⟨"bootSector", 90, false⟩,
   ⟨"bootCode", 129, false⟩,
   ⟨"bootCodePad", 420 - 129, true⟩,
   ⟨"bootSign", 2, false⟩,
   ⟨"infoSector", 4, false⟩,
   ⟨"fsinfoPad", 480, true⟩,
   ⟨"fsinfo", 12, false⟩,
   ⟨"fsinfoTailPad", 14, true⟩,
   ⟨"fsinfoSign", 2, false⟩,
   ⟨"reservedGap", SECTOR_SIZE * 4, true⟩,
   ⟨"backupBootSector", 90, false⟩,
   ⟨"backupBootCode", 129, false⟩,
   ⟨"backupBootCodePad", 420 - 129, true⟩,
   ⟨"backupBootSign", 2, false⟩,
   ⟨"reservedTail", SECTOR_SIZE * 25, true⟩]
  ++ fatOps size ++ fatOps size
  ++ [⟨"rootDir", 32, false⟩,
      ⟨"fileEntry", 32, false⟩,
      ⟨"rootDirPad", sub64 (sub64 (clusterSize size) 32) 32, true⟩,
      ⟨"filePad", fileZeros size, true⟩]

/-- Total number of bytes requested across the whole write sequence
(`m_totalBytes` is set to `headerSize + fileZeros` at line 257; with a
fully successful device every requested byte is written). -/
def opsTotal (size : Nat) : Nat := ((formatOps size).map (·.len)).sum

/-- Modelled from the spec: claim C2's packing of a (head, sector,
cylinder) triple into the 3-byte CHS field, following the spec's words:
byte0 = head; byte1 = high 2 bits of cylinder in bits 6-7 OR the 6-bit
sector; byte2 = low 8 bits of cylinder. -/
def specChsPack (head sector cylinder : Nat) : List Nat :=
  [head, (((cylinder >>> 8) % 4) <<< 6) ||| sector % 64, cylinder % 256]

/-- Little-endian decoding of the 4-byte LBA field (entry bytes 8-11). -/
def decodeLba (e : List Nat) : Nat :=
  e.getD 8 0 + 256 * e.getD 9 0 + 65536 * e.getD 10 0
    + 16777216 * e.getD 11 0

/-- Little-endian decoding of the 4-byte sector-count field (entry bytes
12-15). -/
def decodeCount (e : List Nat) : Nat :=
  e.getD 12 0 + 256 * e.getD 13 0 + 65536 * e.getD 14 0
    + 16777216 * e.getD 15 0

/-! ### Bitwise helper lemmas -/

/-- Bitwise AND splits across a base-`2 ^ k` digit decomposition. -/
theorem land_mul_pow_add {k : Nat} (a c : Nat) {b d : Nat}
    (hb : b < 2 ^ k) (hd : d < 2 ^ k) :
    (2 ^ k * a + b) &&& (2 ^ k * c + d) = 2 ^ k * (a &&& c) + (b &&& d) := by
  have hbd : b &&& d < 2 ^ k := Nat.lt_of_le_of_lt Nat.and_le_left hb
  apply Nat.eq_of_testBit_eq
  intro j
  rw [Nat.testBit_and, Nat.testBit_mul_pow_two_add _ hb,
    Nat.testBit_mul_pow_two_add _ hd, Nat.testBit_mul_pow_two_add _ hbd]
  by_cases h : j < k
  · simp [h, Nat.testBit_and]
  · simp [h, Nat.testBit_and]

/-- Masking with `2 ^ w - 2 ^ k` (the 64-bit complement of `2 ^ k - 1`
for `w = 64`) clears the low `k` bits. -/
theorem land_highMask {w k n : Nat} (hk : k ≤ w) (hn : n < 2 ^ w) :
    n &&& (2 ^ w - 2 ^ k) = n - n % 2 ^ k := by
  have hmask : 2 ^ w - 2 ^ k = 2 ^ k * (2 ^ (w - k) - 1) := by
    rw [Nat.mul_sub, Nat.mul_one, ← pow_add, Nat.add_sub_cancel' hk]
  have hdecomp : n = 2 ^ k * (n / 2 ^ k) + n % 2 ^ k :=
    (Nat.div_add_mod n (2 ^ k)).symm
  have hq : n / 2 ^ k < 2 ^ (w - k) := by
    apply Nat.div_lt_of_lt_mul
    calc n < 2 ^ w := hn
    _ = 2 ^ k * 2 ^ (w - k) := by rw [← pow_add, Nat.add_sub_cancel' hk]
  calc n &&& (2 ^ w - 2 ^ k)
      = (2 ^ k * (n / 2 ^ k) + n % 2 ^ k) &&& (2 ^ k * (2 ^ (w - k) - 1) + 0)
        := by rw [← hdecomp, hmask, Nat.add_zero]
    _ = 2 ^ k * ((n / 2 ^ k) &&& (2 ^ (w - k) - 1)) + (n % 2 ^ k &&& 0) :=
        land_mul_pow_add _ _ (Nat.mod_lt n (Nat.two_pow_pos k))
          (Nat.two_pow_pos k)
    _ = 2 ^ k * (n / 2 ^ k % 2 ^ (w - k)) := by
        rw [Nat.and_pow_two_sub_one_eq_mod, Nat.and_zero, Nat.add_zero]
    _ = 2 ^ k * (n / 2 ^ k) := by rw [Nat.mod_eq_of_lt hq]
    _ = n - n % 2 ^ k := by omega

/-- Upper bound for `align`: the result never exceeds
`number + alignment - 1`. -/
theorem alignQ_le {x a : Nat} (h : x + a - 1 < 2 ^ 64) :
    alignQ x a ≤ x + a - 1 := by
  unfold alignQ
  rw [Nat.mod_eq_of_lt h]
  exact Nat.and_le_left

/-- For a power-of-two alignment the result of `align` is divisible by
the alignment. -/
theorem alignQ_pow2_dvd {x k : Nat} (hk : k ≤ 64) (h : x + 2 ^ k - 1 < 2 ^ 64) :
    2 ^ k ∣ alignQ x (2 ^ k) := by
  unfold alignQ
  rw [Nat.mod_eq_of_lt h, land_highMask hk h]
  have := Nat.div_add_mod (x + 2 ^ k - 1) (2 ^ k)
  have heq : x + 2 ^ k - 1 - (x + 2 ^ k - 1) % 2 ^ k
      = 2 ^ k * ((x + 2 ^ k - 1) / 2 ^ k) := by omega
  rw [heq]
  exact Dvd.intro _ rfl

/-- For the (non-power-of-two) alignment 24 the result of `align` is
still divisible by 8, because `~23` keeps bit 3. -/
theorem alignQ24_dvd {x : Nat} (h : x + 23 < 2 ^ 64) : 8 ∣ alignQ x 24 := by
  unfold alignQ
  have h24 : (2 ^ 64 - 24 : Nat) = 2 ^ 3 * (2 ^ 61 - 3) + 0 := by norm_num
  have hx : x + 24 - 1 = 2 ^ 3 * ((x + 23) / 2 ^ 3) + (x + 23) % 2 ^ 3 := by
    omega
  rw [Nat.mod_eq_of_lt (by omega), hx, h24,
    land_mul_pow_add _ _ (Nat.mod_lt _ (by norm_num)) (by norm_num),
    Nat.and_zero, Nat.add_zero]
  exact Dvd.intro _ rfl

/-! ### Narrowing-conversion cleanup lemmas -/

theorem toInt32_eq {x : Nat} (h : x < 2 ^ 31) : toInt32 x = x := by
  unfold toInt32
  rw [Nat.mod_eq_of_lt (lt_trans h (by norm_num)), if_pos h]

theorem u64ofInt_ofNat {n : Nat} (h : n < 2 ^ 64) : u64ofInt (n : Int) = n := by
  unfold u64ofInt
  rw [Int.emod_eq_of_lt (by positivity) (by exact_mod_cast h)]
  exact Int.toNat_natCast n

theorem sub64_eq {a b : Nat} (hb : b ≤ a) (ha : a < 2 ^ 64) :
    sub64 a b = a - b := by
  unfold sub64
  have h1 : a + 2 ^ 64 - b = (a - b) + 2 ^ 64 := by omega
  rw [h1, Nat.add_mod_right, Nat.mod_eq_of_lt (by omega)]

theorem divCeilI_nat (x : Nat) :
    divCeilI (x : Int) ((512 : Nat) : Int) = (((x + 511) / 512 : Nat) : Int) := by
  unfold divCeilI
  have h1 : (x : Int) + ((512 : Nat) : Int) - 1 = ((x + 511 : Nat) : Int) := by
    push_cast; ring
  rw [h1, ← Int.ofNat_tdiv]

/-! ### Cluster-size selection, characterised -/

theorem lowerBoundIdx_ofNat (s : Nat) :
    lowerBoundIdx (s : Int) =
      if s ≤ 260 then 0 else if s ≤ 8192 then 1 else if s ≤ 16384 then 2
      else if s ≤ 32768 then 3 else 4 := by
  have c1 : ((260 : Int) < (s : Int)) ↔ 260 < s := by exact_mod_cast Iff.rfl
  have c2 : ((8192 : Int) < (s : Int)) ↔ 8192 < s := by exact_mod_cast Iff.rfl
  have c3 : ((16384 : Int) < (s : Int)) ↔ 16384 < s := by exact_mod_cast Iff.rfl
  have c4 : ((32768 : Int) < (s : Int)) ↔ 32768 < s := by exact_mod_cast Iff.rfl
  unfold lowerBoundIdx ranges
  by_cases h1 : s ≤ 260 <;> by_cases h2 : s ≤ 8192 <;>
    by_cases h3 : s ≤ 16384 <;> by_cases h4 : s ≤ 32768 <;>
    [skip; omega; omega; omega; omega; omega; omega; omega;
     skip; omega; omega; omega; skip; omega; skip; skip] <;>
    simp only [List.filter] <;>
    first
    | (rw [decide_eq_false (c1.not.mpr (by omega)),
        decide_eq_false (c2.not.mpr (by omega)),
        decide_eq_false (c3.not.mpr (by omega)),
        decide_eq_false (c4.not.mpr (by omega))]
       simp [h1, h2, h3, h4])
    | (rw [decide_eq_true (c1.mpr (by omega)),
        decide_eq_false (c2.not.mpr (by omega)),
        decide_eq_false (c3.not.mpr (by omega)),
        decide_eq_false (c4.not.mpr (by omega))]
       simp [h1, h2, h3, h4])
    | (rw [decide_eq_true (c1.mpr (by omega)),
        decide_eq_true (c2.mpr (by omega)),
        decide_eq_false (c3.not.mpr (by omega)),
        decide_eq_false (c4.not.mpr (by omega))]
       simp [h1, h2, h3, h4])
    | (rw [decide_eq_true (c1.mpr (by omega)),
        decide_eq_true (c2.mpr (by omega)),
        decide_eq_true (c3.mpr (by omega)),
        decide_eq_false (c4.not.mpr (by omega))]
       simp [h1, h2, h3, h4])
    | (rw [decide_eq_true (c1.mpr (by omega)),
        decide_eq_true (c2.mpr (by omega)),
        decide_eq_true (c3.mpr (by omega)),
        decide_eq_true (c4.mpr (by omega))]
       simp [h1, h2, h3, h4])

/-- The sectors-per-cluster value as a function of the megabyte count, for
all sizes below `2 ^ 51` bytes (where the `int` narrowing of `sizeMb` is
the identity). -/
theorem sectorsPerCluster_char {n : Nat} (h : n < 2 ^ 51) :
    sectorsPerCluster n =
      if n / (1024 * 1024) ≤ 260 then 1
      else if n / (1024 * 1024) ≤ 8192 then 8
      else if n / (1024 * 1024) ≤ 16384 then 16
      else if n / (1024 * 1024) ≤ 32768 then 24
      else 32 := by
  have hs : n / (1024 * 1024) < 2 ^ 31 := by omega
  unfold sectorsPerCluster sizeMb
  rw [toInt32_eq hs, lowerBoundIdx_ofNat]
  by_cases h1 : n / (1024 * 1024) ≤ 260
  · simp [h1]
  · by_cases h2 : n / (1024 * 1024) ≤ 8192
    · simp [h1, h2]
    · by_cases h3 : n / (1024 * 1024) ≤ 16384
      · simp [h1, h2, h3]
      · by_cases h4 : n / (1024 * 1024) ≤ 32768
        · simp [h1, h2, h3, h4]
        · simp [h1, h2, h3, h4]

/-! ### FAT layout bounds for supported partition sizes

The supported size range used below is 1 MiB to 8 TiB; inside it every
intermediate `quint64` computation of the layout derivation is free of
wraparound and every `int` narrowing is the identity. -/

theorem clusters_mul_le {n : Nat} (h1 : 2 ^ 20 ≤ n) (h2 : n ≤ 2 ^ 43) :
    clusters n * (clusterSize n + 8) ≤ n + 16 := by
  have hfd : fatdata n = numSectors n - 32 := by
    unfold fatdata RESERVED_SECTORS
    have hn : 32 ≤ numSectors n := by unfold numSectors SECTOR_SIZE; omega
    have hn2 : numSectors n < 2 ^ 64 := by unfold numSectors SECTOR_SIZE; omega
    exact sub64_eq hn hn2
  have hnum : fatdata n * 512 + 16 ≤ n + 16 := by
    rw [hfd]; unfold numSectors SECTOR_SIZE
    have := Nat.div_mul_le_self n 512
    omega
  have hlt : fatdata n * 512 + 16 < 2 ^ 64 := by omega
  have e : clusters n = (fatdata n * 512 + 16) % 2 ^ 64 / (clusterSize n + 8) := by
    norm_num [clusters, NR_FATS, SECTOR_SIZE]
  rw [e, Nat.mod_eq_of_lt hlt]
  exact le_trans (Nat.div_mul_le_self _ _) hnum

/-- Within the supported range, once the sectors-per-cluster value `v` of
a size `n` is known and the cluster count is small, the `fatlength` and
`headerSize` computations collapse to their plain `Nat` forms. -/
theorem branch_core {n v : Nat} (hv : 0 < v) (hv32 : v ≤ 32)
    (hspc : sectorsPerCluster n = v)
    (hsmall : (clusters n + 2) * 4 < 2 ^ 31) :
    fatlength n = alignQ (((clusters n + 2) * 4 + 511) / 512) v ∧
    fatlength n ≤ ((clusters n + 2) * 4 + 511) / 512 + v - 1 ∧
    headerSize n = (32 + fatlength n * 2 + v) * 512 := by
  have hq : ((clusters n + 2) * 4 + 511) / 512 < 2 ^ 23 := by omega
  have hF : fatlength n = alignQ (((clusters n + 2) * 4 + 511) / 512) v := by
    unfold fatlength
    rw [Nat.mod_eq_of_lt (lt_trans hsmall (by norm_num)),
      toInt32_eq hsmall,
      toInt32_eq (show SECTOR_SIZE < 2 ^ 31 by norm_num [SECTOR_SIZE]),
      show ((SECTOR_SIZE : Nat) : Int) = ((512 : Nat) : Int) from rfl,
      divCeilI_nat, u64ofInt_ofNat (by omega), hspc]
  have hFle : fatlength n ≤ ((clusters n + 2) * 4 + 511) / 512 + v - 1 := by
    rw [hF]
    exact alignQ_le (by omega)
  refine ⟨hF, hFle, ?_⟩
  unfold headerSize RESERVED_SECTORS SECTOR_SIZE
  rw [hspc, Nat.mod_eq_of_lt (by omega)]

/-- The facts claim C4 is about: within the supported range the header
size leaves at least 64 KiB of room below the partition size, and the FAT
length is a multiple of the sectors-per-cluster whenever that value is a
power of two, but only a guaranteed multiple of 8 in the 24-sectors
branch. -/
theorem fat_layout_facts {n : Nat} (h1 : 2 ^ 20 ≤ n) (h2 : n ≤ 2 ^ 43) :
    headerSize n + 65536 ≤ n ∧
    (sectorsPerCluster n = 24 → 8 ∣ fatlength n) ∧
    (sectorsPerCluster n ≠ 24 → sectorsPerCluster n ∣ fatlength n) := by
  have hchar := sectorsPerCluster_char (show n < 2 ^ 51 by omega)
  have hclb := clusters_mul_le h1 h2
  have hCdef : clusterSize n = 512 * sectorsPerCluster n := by
    norm_num [clusterSize, SECTOR_SIZE]
  by_cases b1 : n / (1024 * 1024) ≤ 260
  · -- sectors-per-cluster 1
    have hspc : sectorsPerCluster n = 1 := by rw [hchar, if_pos b1]
    rw [hCdef, hspc] at hclb
    have hsmall : (clusters n + 2) * 4 < 2 ^ 31 := by omega
    obtain ⟨hF, hFle, hH⟩ := branch_core one_pos (by norm_num) hspc hsmall
    have hq512 := Nat.div_mul_le_self ((clusters n + 2) * 4 + 511) 512
    refine ⟨by rw [hH]; omega, ?_, fun _ => hspc ▸ Nat.one_dvd _⟩
    intro h24; rw [hspc] at h24; omega
  · by_cases b2 : n / (1024 * 1024) ≤ 8192
    · -- sectors-per-cluster 8
      have hspc : sectorsPerCluster n = 8 := by
        rw [hchar, if_neg b1, if_pos b2]
      rw [hCdef, hspc] at hclb
      have hsmall : (clusters n + 2) * 4 < 2 ^ 31 := by omega
      obtain ⟨hF, hFle, hH⟩ := branch_core (by norm_num) (by norm_num) hspc
        hsmall
      have hq512 := Nat.div_mul_le_self ((clusters n + 2) * 4 + 511) 512
      have hn261 : 261 * 2 ^ 20 ≤ n := by omega
      refine ⟨by rw [hH]; omega, ?_, fun _ => ?_⟩
      · intro h24; rw [hspc] at h24; omega
      · rw [hspc, hF, show (8 : Nat) = 2 ^ 3 by norm_num]
        exact alignQ_pow2_dvd (by norm_num) (by omega)
    · by_cases b3 : n / (1024 * 1024) ≤ 16384
      · -- sectors-per-cluster 16
        have hspc : sectorsPerCluster n = 16 := by
          rw [hchar, if_neg b1, if_neg b2, if_pos b3]
        rw [hCdef, hspc] at hclb
        have hsmall : (clusters n + 2) * 4 < 2 ^ 31 := by omega
        obtain ⟨hF, hFle, hH⟩ := branch_core (by norm_num) (by norm_num)
          hspc hsmall
        have hq512 := Nat.div_mul_le_self ((clusters n + 2) * 4 + 511) 512
        have hn8193 : 8193 * 2 ^ 20 ≤ n := by omega
        refine ⟨by rw [hH]; omega, ?_, fun _ => ?_⟩
        · intro h24; rw [hspc] at h24; omega
        · rw [hspc, hF, show (16 : Nat) = 2 ^ 4 by norm_num]
          exact alignQ_pow2_dvd (by norm_num) (by omega)
      · by_cases b4 : n / (1024 * 1024) ≤ 32768
        · -- sectors-per-cluster 24 (not a power of two)
          have hspc : sectorsPerCluster n = 24 := by
            rw [hchar, if_neg b1, if_neg b2, if_neg b3, if_pos b4]
          rw [hCdef, hspc] at hclb
          have hsmall : (clusters n + 2) * 4 < 2 ^ 31 := by omega
          obtain ⟨hF, hFle, hH⟩ := branch_core (by norm_num) (by norm_num)
            hspc hsmall
          have hq512 := Nat.div_mul_le_self ((clusters n + 2) * 4 + 511) 512
          have hn16385 : 16385 * 2 ^ 20 ≤ n := by omega
          refine ⟨by rw [hH]; omega, fun _ => ?_,
            fun hne => absurd hspc hne⟩
          rw [hF]
          exact alignQ24_dvd (by omega)
        · -- sectors-per-cluster 32
          have hspc : sectorsPerCluster n = 32 := by
            rw [hchar, if_neg b1, if_neg b2, if_neg b3, if_neg b4]
          rw [hCdef, hspc] at hclb
          have hsmall : (clusters n + 2) * 4 < 2 ^ 31 := by omega
          obtain ⟨hF, hFle, hH⟩ := branch_core (by norm_num) (by norm_num)
            hspc hsmall
          have hq512 := Nat.div_mul_le_self ((clusters n + 2) * 4 + 511) 512
          have hn32769 : 32769 * 2 ^ 20 ≤ n := by omega
          refine ⟨by rw [hH]; omega, ?_, fun _ => ?_⟩
          · intro h24; rw [hspc] at h24; omega
          · rw [hspc, hF, show (32 : Nat) = 2 ^ 5 by norm_num]
            exact alignQ_pow2_dvd (by norm_num) (by omega)

/-! ### CHS packing identities -/

theorem and255_eq (x : Nat) : x &&& 255 = x % 256 := by
  have := Nat.and_pow_two_sub_one_eq_mod x 8
  norm_num at this
  exact this

theorem and63_eq (x : Nat) : x &&& 63 = x % 64 := by
  have := Nat.and_pow_two_sub_one_eq_mod x 6
  norm_num at this
  exact this

theorem and3_eq (x : Nat) : x &&& 3 = x % 4 := by
  have := Nat.and_pow_two_sub_one_eq_mod x 2
  norm_num at this
  exact this

theorem and192_eq (x : Nat) : x &&& 192 = 64 * (x / 64 &&& 3) := by
  have hdecomp : x = 2 ^ 6 * (x / 64) + x % 64 := by omega
  calc x &&& 192 = (2 ^ 6 * (x / 64) + x % 64) &&& (2 ^ 6 * 3 + 0) := by
        rw [← hdecomp]; norm_num
    _ = 2 ^ 6 * (x / 64 &&& 3) + (x % 64 &&& 0) :=
        land_mul_pow_add _ _ (by omega) (by norm_num)
    _ = 64 * (x / 64 &&& 3) := by rw [Nat.and_zero, Nat.add_zero]; norm_num

/-- The bytes emitted by `fillChs` agree with the spec's description of
the 3-byte packing, applied to the same `position` argument: the masks in
the C++ are exactly the spec's bit-field extractions. -/
theorem fillChs_eq_specPack (pos : Nat) :
    fillChs pos
      = specChsPack (chsHead pos) (chsSector pos) (chsCylinder pos) := by
  unfold fillChs specChsPack
  have e0 : chsHead pos &&& 255 = chsHead pos := by
    rw [and255_eq]
    have : chsHead pos < 255 := Nat.mod_lt _ (by norm_num [NUM_HEADS])
    omega
  have e1 : (chsCylinder pos >>> 2) &&& 0xc0
      = ((chsCylinder pos >>> 8) % 4) <<< 6 := by
    rw [Nat.shiftRight_eq_div_pow, Nat.shiftRight_eq_div_pow,
      Nat.shiftLeft_eq]
    rw [show (0xc0 : Nat) = 192 by norm_num, and192_eq,
      Nat.div_div_eq_div_mul,
      show (2 : Nat) ^ 2 * 64 = 256 by norm_num,
      show (2 : Nat) ^ 8 = 256 by norm_num,
      show (2 : Nat) ^ 6 = 64 by norm_num, and3_eq]
    exact Nat.mul_comm 64 _
  have e2 : chsSector pos &&& 0x3f = chsSector pos % 64 := by
    rw [show (0x3f : Nat) = 63 by norm_num, and63_eq]
  have e3 : chsCylinder pos &&& 0xff = chsCylinder pos % 256 := by
    rw [show (0xff : Nat) = 255 by norm_num, and255_eq]
  rw [e0, e1, e2, e3]

/-! ### Little-endian decoding identities -/

theorem le32_decode {v : Nat} (h : v < 2 ^ 32) :
    v % 256 + 256 * (v / 256 % 256) + 65536 * (v / 65536 % 256)
      + 16777216 * (v / 16777216 % 256) = v := by
  omega

theorem decodeLba_entry (off sz : Nat) :
    decodeLba (partitionEntry off sz) = off / SECTOR_SIZE % 2 ^ 32 := by
  have h1 : decodeLba (partitionEntry off sz)
      = off / SECTOR_SIZE % 2 ^ 32 % 256
        + 256 * (off / SECTOR_SIZE % 2 ^ 32 / 256 % 256)
        + 65536 * (off / SECTOR_SIZE % 2 ^ 32 / 65536 % 256)
        + 16777216 * (off / SECTOR_SIZE % 2 ^ 32 / 16777216 % 256) := rfl
  rw [h1]
  exact le32_decode (Nat.mod_lt _ (by norm_num))

theorem decodeCount_entry (off sz : Nat) :
    decodeCount (partitionEntry off sz) = sz / SECTOR_SIZE % 2 ^ 32 := by
  have h1 : decodeCount (partitionEntry off sz)
      = sz / SECTOR_SIZE % 2 ^ 32 % 256
        + 256 * (sz / SECTOR_SIZE % 2 ^ 32 / 256 % 256)
        + 65536 * (sz / SECTOR_SIZE % 2 ^ 32 / 65536 % 256)
        + 16777216 * (sz / SECTOR_SIZE % 2 ^ 32 / 16777216 % 256) := rfl
  rw [h1]
  exact le32_decode (Nat.mod_lt _ (by norm_num))

/-- A freshly built partition entry is never an empty slot: its type byte
is `0xb`. -/
theorem isEmptySlot_partitionEntry (off sz : Nat) :
    isEmptySlot (partitionEntry off sz) = false := by
  simp [isEmptySlot, partitionEntry, List.all_append]

/-! ### Zero-writer loop characterisation -/

theorem wzGo_ok_iff (ret : Nat → Int) (l : List Nat) (k acc : Nat) :
    isOk (wzGo ret l k acc) = true ↔ ∀ j < l.length, 0 ≤ ret (k + j) := by
  induction l generalizing k acc with
  | nil => simp [wzGo, isOk]
  | cons c rest ih =>
    by_cases h : ret k < 0
    · simp only [wzGo, if_pos h, isOk, List.length_cons]
      constructor
      · intro hfalse; exact absurd hfalse (by simp)
      · intro hall
        have h0 := hall 0 (by omega)
        rw [Nat.add_zero] at h0
        omega
    · simp only [wzGo, if_neg h, List.length_cons, ih]
      constructor
      · intro hrest j hj
        match j with
        | 0 => simpa using Int.not_lt.mp h
        | j + 1 =>
          have := hrest j (by omega)
          rwa [show k + 1 + j = k + (j + 1) by omega] at this
      · intro hall j hj
        have := hall (j + 1) (by omega)
        rwa [show k + (j + 1) = k + 1 + j by omega] at this

/-! ## Claim theorems -/

/-- C1 (counterexample): the claim states that every partition size yields
a sectors-per-cluster value in {1, 8, 16, 32}; but a 20 GiB partition
(megabyte count 20480, inside the (16384, 32768] threshold interval that
the claim maps to 32) yields 24, because the code computes
`(found - ranges.begin()) * 8` instead of doubling. -/
theorem C1_cluster_table_counterexample :
    sectorsPerCluster 21474836480 ∉ ([1, 8, 16, 32] : List Nat) := by
  decide

/-- C1 (amended): for every size below 2^51 bytes the sectors-per-cluster
value is determined by the threshold table {260, 8192, 16384, 32768} MB,
mapping the five intervals to 1, 8, 16, 24 and 32 respectively — the
fourth interval gives 24, not 32, and every value lies in
{1, 8, 16, 24, 32}. -/
theorem C1_cluster_table_amended (n : Nat) (h : n < 2 ^ 51) :
    (n / (1024 * 1024) ≤ 260 → sectorsPerCluster n = 1) ∧
    (260 < n / (1024 * 1024) ∧ n / (1024 * 1024) ≤ 8192 →
      sectorsPerCluster n = 8) ∧
    (8192 < n / (1024 * 1024) ∧ n / (1024 * 1024) ≤ 16384 →
      sectorsPerCluster n = 16) ∧
    (16384 < n / (1024 * 1024) ∧ n / (1024 * 1024) ≤ 32768 →
      sectorsPerCluster n = 24) ∧
    (32768 < n / (1024 * 1024) → sectorsPerCluster n = 32) ∧
    sectorsPerCluster n ∈ ([1, 8, 16, 24, 32] : List Nat) := by
  rw [sectorsPerCluster_char h]
  refine ⟨fun hc => by rw [if_pos hc],
    fun hc => by rw [if_neg (by omega), if_pos hc.2],
    fun hc => by rw [if_neg (by omega), if_neg (by omega), if_pos hc.2],
    fun hc => by
      rw [if_neg (by omega), if_neg (by omega), if_neg (by omega),
        if_pos hc.2],
    fun hc => by
      rw [if_neg (by omega), if_neg (by omega), if_neg (by omega),
        if_neg (by omega)],
    ?_⟩
  split_ifs <;> simp

/-- C1 (witness): the amended theorem applied to the concrete 20 GiB size. -/
theorem C1_cluster_table_witness : sectorsPerCluster 21474836480 = 24 :=
  (C1_cluster_table_amended 21474836480 (by norm_num)).2.2.2.1
    ⟨by norm_num, by norm_num⟩

/-- C2 (counterexample): the claim states the CHS-start field is computed
from the starting sector index `s = offset / sectorSize`; at offset
1 MiB (sector index 2048) the entry's actual CHS-start bytes are
[69, 5, 65] (computed from the byte offset 1048576 itself), not the
[32, 33, 0] the claim's formulas produce. -/
theorem C2_chs_counterexample :
    ((partitionEntry 1048576 268435456).drop 1).take 3
      ≠ specChsPack (chsHead (1048576 / SECTOR_SIZE))
        (chsSector (1048576 / SECTOR_SIZE))
        (chsCylinder (1048576 / SECTOR_SIZE)) := by
  decide

/-- C2 (amended): the CHS-start and CHS-end fields are the spec's 3-byte
packing of the head/sector/cylinder formulas applied to the raw BYTE
values `offset` and `offset + size` — `fillChs` never divides its
argument by the sector size.  (Below 2^45 the C++ `int` narrowing of the
cylinder is the identity.) -/
theorem C2_chs_amended (offset size : Nat) (h : offset + size < 2 ^ 45) :
    ((partitionEntry offset size).drop 1).take 3
      = specChsPack (chsHead offset) (chsSector offset)
        (chsCylinder offset) ∧
    ((partitionEntry offset size).drop 5).take 3
      = specChsPack (chsHead (offset + size)) (chsSector (offset + size))
        (chsCylinder (offset + size)) := by
  have hm : (offset + size) % 2 ^ 64 = offset + size :=
    Nat.mod_eq_of_lt (by omega)
  constructor
  · calc ((partitionEntry offset size).drop 1).take 3 = fillChs offset := rfl
    _ = specChsPack (chsHead offset) (chsSector offset)
        (chsCylinder offset) := fillChs_eq_specPack offset
  · calc ((partitionEntry offset size).drop 5).take 3
        = fillChs ((offset + size) % 2 ^ 64) := rfl
    _ = fillChs (offset + size) := by rw [hm]
    _ = specChsPack (chsHead (offset + size)) (chsSector (offset + size))
        (chsCylinder (offset + size)) := fillChs_eq_specPack _

/-- C2 (witness): the amended theorem at offset 1 MiB, size 256 MiB. -/
theorem C2_chs_witness :
    ((partitionEntry 1048576 268435456).drop 1).take 3
      = specChsPack (chsHead 1048576) (chsSector 1048576)
        (chsCylinder 1048576) ∧
    ((partitionEntry 1048576 268435456).drop 5).take 3
      = specChsPack (chsHead (1048576 + 268435456))
        (chsSector (1048576 + 268435456))
        (chsCylinder (1048576 + 268435456)) :=
  C2_chs_amended 1048576 268435456 (by norm_num)

/-- C3: the code writes identical time/date fields into both directory
entries (creation, access and modification alike), and the time formula
matches the spec, but the date field is computed as
`day + (month << 5) + (year - 1980)` WITHOUT shifting the year into bits
9-15: on 2026-10-11 the code produces 377 where the FAT DOS encoding
required by the spec produces 23883.  The code's own comment says the
value is generated "according to the specification", so this is a code
bug. -/
theorem C3_timestamp_bug :
    (∀ tlo thi dlo dhi s0 s1 s2 s3,
      timestampFields (rootDirBytes tlo thi dlo dhi)
        = timestampFields (fileEntryBytes tlo thi dlo dhi s0 s1 s2 s3)) ∧
    fatDate 2026 10 11 = 377 ∧
    specFatDate 2026 10 11 = 23883 ∧
    fatDate 2026 10 11 ≠ specFatDate 2026 10 11 := by
  refine ⟨fun tlo thi dlo dhi s0 s1 s2 s3 => rfl, by decide, by decide,
    by decide⟩

/-- C4 (counterexample): the claim states the FAT length is always a
multiple of the chosen sectors-per-cluster; at 20 GiB the chosen value is
24 and the FAT length is 13664 = 24 * 569 + 8, because
`align(x, 24) = (x + 23) & ~23` is not an alignment for the
non-power-of-two 24. -/
theorem C4_layout_counterexample :
    sectorsPerCluster 21474836480 = 24 ∧
    ¬ (sectorsPerCluster 21474836480 ∣ fatlength 21474836480) := by
  decide

/-- C4 (amended): for all partition sizes in the supported range (1 MiB
to 8 TiB), the computed header size plus the zero-fill length never
exceeds the partition size; the FAT length is a multiple of the
sectors-per-cluster whenever that value is a power of two (all branches
except 24), and in the 24-sectors branch it is only guaranteed to be a
multiple of 8. -/
theorem C4_layout_amended (n : Nat) (h1 : 2 ^ 20 ≤ n) (h2 : n ≤ 2 ^ 43) :
    headerSize n + fileZeros n ≤ n ∧
    (sectorsPerCluster n ≠ 24 → sectorsPerCluster n ∣ fatlength n) ∧
    (sectorsPerCluster n = 24 → 8 ∣ fatlength n) := by
  obtain ⟨hh, h24, hpow⟩ := fat_layout_facts h1 h2
  refine ⟨?_, hpow, h24⟩
  have hz : fileZeros n ≤ 65536 := by
    have := min_le_right (maxFileSize n) (64 * 1024)
    simp [fileZeros]
  omega

/-- C4 (witness): the amended theorem at the spec's concrete 256 MiB
scenario size. -/
theorem C4_layout_witness :
    headerSize 268435456 + fileZeros 268435456 ≤ 268435456 ∧
    (sectorsPerCluster 268435456 ≠ 24 →
      sectorsPerCluster 268435456 ∣ fatlength 268435456) ∧
    (sectorsPerCluster 268435456 = 24 → 8 ∣ fatlength 268435456) :=
  C4_layout_amended 268435456 (by norm_num) (by norm_num)

/-- C5 (counterexample): the claim states the FSInfo sector is followed by
exactly two sectors of zero padding; in the write sequence the op after
the FSInfo trailing signature is a zero fill of 4 sectors (2048 bytes),
not 2. -/
theorem C5_sequence_counterexample :
    ((formatOps 268435456)[9]?.map (·.len)) = some 2048 ∧
    2048 ≠ 2 * SECTOR_SIZE := by
  decide

set_option maxHeartbeats 1600000 in
/-- C5 (amended): for every size, the FSInfo sector is followed by FOUR
sectors of zero padding (reserved sectors 2-5), the backup boot sector
starts immediately after at byte 3072 = sector 6 (which is the
conventional FAT32 backup location), and the final 25-sector padding
completes the 32-sector reserved area. -/
theorem C5_sequence_amended (size : Nat) :
    (formatOps size)[9]? = some ⟨"reservedGap", SECTOR_SIZE * 4, true⟩ ∧
    (formatOps size)[10]? = some ⟨"backupBootSector", 90, false⟩ ∧
    (((formatOps size).take 10).map (·.len)).sum = 6 * SECTOR_SIZE ∧
    (formatOps size)[14]? = some ⟨"reservedTail", SECTOR_SIZE * 25, true⟩ ∧
    (((formatOps size).take 15).map (·.len)).sum
      = RESERVED_SECTORS * SECTOR_SIZE :=
  ⟨rfl, rfl, rfl, rfl, rfl⟩

/-- C6 (counterexample): the claim states every write whose returned byte
count differs from the requested length fails fatally; but a zero-fill
chunk requesting 512 bytes whose `::write` returns only 100 does not
fail — `writeZeros` succeeds and just adds 100 to the progress counter. -/
theorem C6_short_write_counterexample :
    writeZeros (fun _ => 100) 512 0 = .ok 100 ∧
    chunkSizes 512 = [512] ∧ (100 : Int) ≠ 512 :=
  ⟨rfl, rfl, by decide⟩

/-- C6 (amended): the 16-byte partition-entry write does fail fatally on
any return value other than 16, but a zero-fill chunk only fails on a
NEGATIVE return value: `writeZeros` succeeds exactly when every chunk's
return value is non-negative, regardless of short writes, and continues
with the next chunk after a short write. -/
theorem C6_short_write_amended :
    (∀ ret size acc, isOk (writeZeros ret size acc) = true ↔
      ∀ k < (size + 511) / 512, 0 ≤ ret k) ∧
    (∀ d offset size wret, d.entries.length < MAX_PARTITIONS →
      wret ≠ 16 →
      (addPartition d offset size wret).2
        = .error "Failed to add partition.") := by
  constructor
  · intro ret size acc
    unfold writeZeros
    rw [wzGo_ok_iff]
    have hlen : (chunkSizes size).length = (size + 511) / 512 := by
      simp [chunkSizes]
    rw [hlen]
    constructor
    · intro hall k hk; have := hall k hk; rwa [Nat.zero_add] at this
    · intro hall k hk; rw [Nat.zero_add]; exact hall k hk
  · intro d offset size wret hlen hne
    simp only [addPartition]
    rw [if_neg (by simp [MAX_PARTITIONS] at hlen ⊢; omega),
      if_neg (by exact_mod_cast hne)]

/-- C6 (witness): the amended theorem applied at concrete inputs — a
fully successful 1024-byte zero fill, and a partition-entry write
returning 3 of 16 bytes. -/
theorem C6_short_write_witness :
    (isOk (writeZeros (fun _ => 512) 1024 0) = true ↔
      ∀ k < (1024 + 511) / 512, 0 ≤ (fun _ => (512 : Int)) k) ∧
    (addPartition ⟨[], fun _ => []⟩ 0 512 3).2
      = .error "Failed to add partition." :=
  ⟨C6_short_write_amended.1 (fun _ => 512) 1024 0,
   C6_short_write_amended.2 ⟨[], fun _ => []⟩ 0 512 3 (by decide)
     (by decide)⟩

/-- C7: when the in-memory table already holds 4 entries, `addPartition`
throws `TableFull` before the in-memory append, the seek and the device
write: the returned state is the input state unchanged (same entry list,
same on-disk slots). -/
theorem C7_table_full (d : BlockDev) (offset size : Nat) (wret : Int)
    (h : d.entries.length = 4) :
    addPartition d offset size wret
      = (d, .error "Partition table is full.") := by
  simp only [addPartition]
  rw [if_pos (by simp [MAX_PARTITIONS, h])]

/-- C7 (witness): the theorem applied to a concrete full table. -/
theorem C7_table_full_witness :
    addPartition ⟨List.replicate 4 [], fun _ => []⟩ 123 4567 16
      = (⟨List.replicate 4 [], fun _ => []⟩,
         .error "Partition table is full.") :=
  C7_table_full ⟨List.replicate 4 [], fun _ => []⟩ 123 4567 16 rfl

set_option maxRecDepth 8000 in
/-- C8 (counterexample): the claim quantifies over every (offset, size)
pair with positive sector-multiple size, but the LBA field is a
`quint32`: at offset 2 TiB (sector index 2^32) the stored LBA truncates
to 0, so no read-back entry decodes to offset/512. -/
theorem C8_append_read_counterexample :
    ¬ ∃ e ∈ (readTable (addPartition ⟨[], fun _ => List.replicate 16 0⟩
        2199023255552 512 16).1).entries,
      decodeLba e = 2199023255552 / SECTOR_SIZE ∧
      decodeCount e = 512 / SECTOR_SIZE := by
  decide

/-- C8 (amended): for every (offset, size) pair with size a positive
multiple of 512, offset and size below 2 TiB (so that the 32-bit LBA and
count fields do not truncate) and a non-full table, a successful
`addPartition` returns the 1-based position `m_entries.size() + 1`, and a
subsequent `readEntries` yields an entry whose decoded LBA is
offset / 512 and whose decoded sector count is size / 512. -/
theorem C8_append_read_amended (d : BlockDev) (off sz : Nat)
    (hfull : d.entries.length < MAX_PARTITIONS)
    (hoff : off < 2 ^ 41) (hsz : sz < 2 ^ 41)
    (_hdvd : SECTOR_SIZE ∣ sz) (hpos : 0 < sz) :
    (addPartition d off sz 16).2 = .ok (d.entries.length + 1) ∧
    ∃ e ∈ (readTable (addPartition d off sz 16).1).entries,
      decodeLba e = off / SECTOR_SIZE ∧
      decodeCount e = sz / SECTOR_SIZE := by
  have hlt : ¬ (d.entries.length + 1 > MAX_PARTITIONS) := by
    simp only [MAX_PARTITIONS] at hfull ⊢; omega
  have hres : addPartition d off sz 16
      = (⟨d.entries ++ [partitionEntry off sz],
          writeSlot d.disk d.entries.length (partitionEntry off sz)⟩,
         .ok (d.entries.length + 1)) := by
    simp [addPartition, hlt, PARTITION_ENTRY_SIZE]
  rw [hres]
  refine ⟨rfl, ⟨partitionEntry off sz, ?_, ?_, ?_⟩⟩
  · apply List.mem_append_right
    apply List.mem_filter.mpr
    refine ⟨List.mem_map.mpr ⟨d.entries.length, ?_, ?_⟩, ?_⟩
    · exact List.mem_range.mpr (by simpa [MAX_PARTITIONS] using hfull)
    · simp [writeSlot]
    · simp [isEmptySlot_partitionEntry]
  · rw [decodeLba_entry]
    apply Nat.mod_eq_of_lt
    simp only [SECTOR_SIZE]
    omega
  · rw [decodeCount_entry]
    apply Nat.mod_eq_of_lt
    simp only [SECTOR_SIZE]
    omega

/-- C8 (witness): the amended theorem for a 256 MiB partition appended at
offset 1 MiB to an empty table. -/
theorem C8_append_read_witness :
    (addPartition ⟨[], fun _ => List.replicate 16 0⟩ 1048576 268435456
      16).2 = .ok 1 ∧
    ∃ e ∈ (readTable (addPartition ⟨[], fun _ => List.replicate 16 0⟩
        1048576 268435456 16).1).entries,
      decodeLba e = 1048576 / SECTOR_SIZE ∧
      decodeCount e = 268435456 / SECTOR_SIZE :=
  C8_append_read_amended ⟨[], fun _ => List.replicate 16 0⟩ 1048576
    268435456 (by decide) (by norm_num) (by norm_num)
    (by norm_num [SECTOR_SIZE]) (by norm_num)

set_option maxRecDepth 100000 in
/-- C9: at partition size 277373440 the pre-allocated file needs 67581
cluster links, so one FAT's header + chain + end marker occupy 270340
bytes while `SECTOR_SIZE * fatlength` is only 270336: the `quint64` FAT
padding length underflows to 2^64 - 4 and the total requested bytes can
no longer equal `headerSize + fileZeros` — the spec's stated total (and
the code's own `m_totalBytes`) is violated, so this is a code bug at such
sizes. -/
theorem C9_total_bytes_bug :
    usedBytes 277373440 = 270340 ∧
    SECTOR_SIZE * fatlength 277373440 = 270336 ∧
    fatPadBytes 277373440 = 18446744073709551612 ∧
    opsTotal 277373440 ≠ headerSize 277373440 + fileZeros 277373440 := by
  refine ⟨by decide, by decide, by decide, by decide⟩

/-- C10: `read` appends the non-empty slots to the in-memory list without
clearing it: two reads on an unchanged device with k non-empty slots
leave the k entries duplicated (2k entries), and — since `addPartition`
writes to slot `m_entries.size()` — the next append after a double read
with k = 1 writes slot 2 instead of the slot 1 it would use after a
single read. -/
theorem C10_read_appends (d : BlockDev) :
    (readTable (readTable { d with entries := [] })).entries
      = tableSlots d ++ tableSlots d ∧
    (readTable (readTable { d with entries := [] })).entries.length
      = 2 * (tableSlots d).length ∧
    ∀ off sz, (tableSlots d).length = 1 →
      (addPartition (readTable (readTable { d with entries := [] })) off sz
        16).1.disk 2 = partitionEntry off sz ∧
      (addPartition (readTable { d with entries := [] }) off sz 16).1.disk 1
        = partitionEntry off sz := by
  have he : (readTable (readTable { d with entries := [] })).entries
      = tableSlots d ++ tableSlots d := by
    simp [readTable, tableSlots]
  have he1 : (readTable { d with entries := [] }).entries = tableSlots d := by
    simp [readTable, tableSlots]
  refine ⟨he, by rw [he, List.length_append]; omega, fun off sz h1 => ?_⟩
  have hlen2 : (readTable (readTable { d with entries := [] })).entries.length
      = 2 := by rw [he, List.length_append, h1]
  have hlen1 : (readTable { d with entries := [] }).entries.length = 1 := by
    rw [he1, h1]
  constructor
  · simp [addPartition, hlen2, MAX_PARTITIONS, PARTITION_ENTRY_SIZE,
      writeSlot]
  · simp [addPartition, hlen1, MAX_PARTITIONS, PARTITION_ENTRY_SIZE,
      writeSlot]

/-- C10 (witness): the duplication and slot shift on a concrete device
with exactly one non-empty slot. -/
theorem C10_read_appends_witness :
    (tableSlots ⟨[], fun i => if i = 0 then partitionEntry 0 1024
      else List.replicate 16 0⟩).length = 1 ∧
    (addPartition (readTable (readTable
      { (⟨[], fun i => if i = 0 then partitionEntry 0 1024
          else List.replicate 16 0⟩ : BlockDev) with entries := [] }))
      2048 512 16).1.disk 2 = partitionEntry 2048 512 :=
  ⟨by decide,
   ((C10_read_appends ⟨[], fun i => if i = 0 then partitionEntry 0 1024
      else List.replicate 16 0⟩).2.2 2048 512 (by decide)).1⟩

end BlockDevice
